import Mathlib

/-!
A verification development for the `examples/sign1.c` program of the xmlsec
repository: signing a multi-signature XML template with a private key.

The C program is shallowly embedded below.  Pure glue functions
(`register_namespaces`, `RegisterID`, `do_sign_node`, `sign_file`, `main`)
become Lean functions; the external collaborators (libxml2 parsing, the XPath
evaluator, the xmlsec crypto engine) are modelled as oracle inputs bundled in
the `ExtEnv` structure, and the document tree as the inductive `XNode`.
-/

/-- Node kinds, mirroring the libxml2 node types the program inspects
(`XML_ELEMENT_NODE`, text, `XML_NAMESPACE_DECL`, anything else). -/
inductive NodeKind where
  | element
  | textNode
  | nsDecl
  | otherKind
deriving DecidableEq, Repr

/-- An XML node: kind, tag name, optional namespace URI, attributes
(name/value pairs) and ordered children.  An attribute that is present with
the empty string value models a libxml2 attribute whose `children` list is
NULL (which is how libxml2 represents an empty attribute value). -/
inductive XNode where
  | node (kind : NodeKind) (name : String) (ns : Option String)
         (attrs : List (String × String)) (children : List XNode)

/-- The kind of a node. -/
def XNode.kind : XNode → NodeKind
  | .node k _ _ _ _ => k

/-- The attributes of a node. -/
def XNode.attrs : XNode → List (String × String)
  | .node _ _ _ latt _ => latt

/- Constants appearing in `sign_file` (sign1.c lines 358-359, 388, 397, 413).
`xmlSecNodeSignature` and `xmlSecDSigNs` are the xmlsec library constants. -/

/-- The local name of the certificates container node (sign1.c line 358). -/
def xmlSecNodeCertificates : String := "certificates"

/-- The namespace URI of the certificates nodes (sign1.c line 359). -/
def xmlSecNodeCertificatesNS : String := "http://vde.com/fnn/stb/certificates/1.4.0"

/-- The xmlsec constant for the Signature element name. -/
def xmlSecNodeSignature : String := "Signature"

/-- The xmlsec constant for the XML digital signature namespace URI. -/
def xmlSecDSigNs : String := "http://www.w3.org/2000/09/xmldsig#"

/-- Does a node match a (local name, namespace URI) pair: it must be an
element whose name and namespace URI both match exactly. -/
def nodeMatches (nm ns : String) (t : XNode) : Bool :=
  match t with
  | .node k n nsu _ _ =>
    decide (k = NodeKind.element) && decide (n = nm) && decide (nsu = some ns)

mutual
/-- Modelled from the spec: the Signature Node Locator (spec 4.3), realised in
the external xmlsec library as `xmlSecFindNode`, which is not part of this
repository's sources.  Pre-order traversal of the subtree rooted at `t`,
returning the first node whose local name and namespace URI both match
exactly, or nothing when no match exists. -/
def xmlSecFindNode (nm ns : String) (t : XNode) : Option XNode :=
  if nodeMatches nm ns t then some t
  else match t with
    | .node _ _ _ _ ch => xmlSecFindNodeL nm ns ch

/-- Pre-order search over a list of sibling subtrees, left to right. -/
def xmlSecFindNodeL (nm ns : String) (l : List XNode) : Option XNode :=
  match l with
  | [] => none
  | t :: ts =>
    match xmlSecFindNode nm ns t with
    | some r => some r
    | none => xmlSecFindNodeL nm ns ts
end

mutual
/-- Does the subtree rooted at `t` contain a node matching the
(local name, namespace URI) pair? -/
def containsT (nm ns : String) (t : XNode) : Bool :=
  nodeMatches nm ns t ||
    (match t with
     | .node _ _ _ _ ch => containsL nm ns ch)

/-- Does any subtree in the list contain a matching node? -/
def containsL (nm ns : String) (l : List XNode) : Bool :=
  match l with
  | [] => false
  | t :: ts => containsT nm ns t || containsL nm ns ts
end

mutual
/-- A subtree with no matching node makes the locator return nothing. -/
theorem find_none_of_not_contains (nm ns : String) (t : XNode)
    (h : containsT nm ns t = false) : xmlSecFindNode nm ns t = none := by
  unfold containsT at h
  simp only [Bool.or_eq_false_iff] at h
  unfold xmlSecFindNode
  rw [h.1]
  simp only [Bool.false_eq_true, if_false]
  cases t with
  | node k n nsu a ch => exact findL_none_of_not_contains nm ns ch h.2

/-- List version of `find_none_of_not_contains`. -/
theorem findL_none_of_not_contains (nm ns : String) (l : List XNode)
    (h : containsL nm ns l = false) : xmlSecFindNodeL nm ns l = none := by
  cases l with
  | nil => rfl
  | cons t ts =>
    unfold containsL at h
    simp only [Bool.or_eq_false_iff] at h
    simp only [xmlSecFindNodeL]
    rw [find_none_of_not_contains nm ns t h.1]
    exact findL_none_of_not_contains nm ns ts h.2
end

/-- Models libxml2's `xmlStrchr` followed by the in-place split the program
performs (`*(next++) = 0`): returns the characters strictly before the first
occurrence of `c` and the characters strictly after it, or nothing when `c`
does not occur. -/
def splitAtChar (c : Char) : List Char → Option (List Char × List Char)
  | [] => none
  | x :: xs =>
    if x = c then some ([], xs)
    else
      match splitAtChar c xs with
      | none => none
      | some (a, b) => some (x :: a, b)

/-- A character absent from the list makes `splitAtChar` return nothing. -/
theorem splitAtChar_none_of_not_mem (c : Char) (s : List Char) (h : c ∉ s) :
    splitAtChar c s = none := by
  induction s with
  | nil => rfl
  | cons x xs ih =>
    simp only [List.mem_cons, not_or] at h
    simp only [splitAtChar]
    rw [if_neg (fun hx => h.1 hx.symm), ih h.2]

/-- The loop body of `register_namespaces` (sign1.c lines 70-99), one
constructor step per iteration of the C `while` loop.  `s` is the remaining
input (the C pointer `next`), `ctx` the namespace bindings registered so far
in the XPath context.  `none` models the negative return value; `some ctx`
models returning 0 with the context holding the bindings `ctx`.  libxml2's
`xmlXPathRegisterNs` is modelled as recording the binding and succeeding,
which is its behaviour for the non-NULL prefix/href pairs this loop passes
it.  The fuel argument only bounds the number of iterations: every iteration
consumes at least the `=` character, so `s.length + 1` units never run out
(the fuel-0 branch is unreachable from `register_namespaces`). -/
def registerNamespacesFuel :
    Nat → List Char → List (List Char × List Char) → Option (List (List Char × List Char))
  | 0, _, _ => none
  | fuel + 1, s, ctx =>
    let s1 := s.dropWhile (fun c => c = ' ')
    if s1.isEmpty then some ctx
    else
      match splitAtChar '=' s1 with
      | none => none
      | some (pfx, rest) =>
        match splitAtChar ' ' rest with
        | none => some (ctx ++ [(pfx, rest)])
        | some (href, rest2) => registerNamespacesFuel fuel rest2 (ctx ++ [(pfx, href)])

/-- `register_namespaces` (sign1.c lines 54-103): parses the
whitespace-separated `prefix=uri` binding list `s` and registers each binding
in a fresh XPath context.  Returns the registered bindings on success (the C
function returns 0), nothing on error (the C function returns a negative
value). -/
def register_namespaces (s : List Char) : Option (List (List Char × List Char)) :=
  registerNamespacesFuel (s.length + 1) s []

/-- The namespace binding list `sign_file` registers (sign1.c line 388). -/
def sigNsListChars : List Char := ("sig=http://www.w3.org/2000/09/xmldsig#").toList

/-- Models libxml2's `xmlHasProp` combined with `xmlNodeListGetString`
(sign1.c lines 262-273): the value of attribute `nm` on `t`, or nothing when
the attribute is absent.  A present attribute with value `""` corresponds to
a libxml2 attribute whose `children` pointer is NULL. -/
def xmlHasProp (t : XNode) (nm : String) : Option String :=
  (t.attrs.find? (fun a => decide (a.1 = nm))).map (fun a => a.2)

/-- `RegisterID` (sign1.c lines 251-290).  `reg` is the document's identifier
registry (the libxml2 ID table written by `xmlAddID`).  Returns the C result
code paired with the updated registry.  The attribute-missing and
empty-value cases return -1 with the registry untouched; afterwards the
identifier is registered unconditionally — the duplicate check of the
original example (sign1.c lines 275-281) is commented out in this source,
and the return value of `xmlAddID` is ignored. -/
def RegisterID (reg : List String) (t : XNode) (idName : String) : Int × List String :=
  match xmlHasProp t idName with
  | none => (-1, reg)
  | some v => if v = "" then (-1, reg) else (0, reg ++ [v])

/-- Does `t` carry a non-empty `id` attribute (the condition under which
`RegisterID` succeeds)? -/
def hasGoodId (t : XNode) : Bool :=
  match xmlHasProp t "id" with
  | none => false
  | some v => decide (v ≠ "")

/-- `RegisterID` returns 0 on any node with a non-empty `id` attribute,
whatever the current registry contents. -/
theorem RegisterID_fst_of_hasGoodId (reg : List String) (t : XNode)
    (h : hasGoodId t = true) : (RegisterID reg t "id").1 = 0 := by
  unfold hasGoodId at h
  unfold RegisterID
  cases hv : xmlHasProp t "id" with
  | none => rw [hv] at h; exact absurd h (by simp)
  | some v =>
    rw [hv] at h
    simp only [decide_eq_true_eq] at h
    simp [h]

/-- Key material: an opaque private-key payload plus the human-readable name
set by `xmlSecKeySetName` (sign1.c line 310 sets it to the key file name). -/
structure Key where
  material : Nat
  keyName : String
deriving DecidableEq, Repr

/-- A signature context (`xmlSecDSigCtx`): an allocation identity plus the
`signKey` slot the program fills.  `ctxId` names the allocation so that
distinct `xmlSecDSigCtxCreate` calls yield observably distinct instances. -/
structure DSigCtx where
  ctxId : Nat
  signKey : Option Key
deriving DecidableEq, Repr

/-- `xmlSecDSigCtxCreate(NULL)` (sign1.c line 297): a fresh context with an
empty key slot.  `fresh` is the allocator counter supplying the identity. -/
def xmlSecDSigCtxCreate (fresh : Nat) : DSigCtx := ⟨fresh, none⟩

/-- The external collaborators of one `sign_file` run, fixed for its whole
duration: the parse result of the template file (`xmlReadFile` plus the
`xmlDocGetRootElement` check — `none` covers both a failed parse and a
missing root), whether `xmlXPathNewContext` succeeds, the node set produced
by evaluating `//sig:Signature` (`none` models a failed evaluation), the
crypto backend's key loader (`xmlSecCryptoAppKeyLoadEx`, keyed by file
name), and the signing step's verdict (`xmlSecDSigCtxSign`). -/
structure ExtEnv where
  parse : Option XNode
  newCtxOk : Bool
  eval : Option (List XNode)
  loadKey : String → Option Nat
  signOk : Key → XNode → Bool

/-- The observable result of one `do_sign_node` call: the C return code and
the signature context instance the call created and used. -/
structure SignStep where
  res : Int
  ctx : DSigCtx

/-- `do_sign_node` (sign1.c lines 292-330): create a fresh signature
context, load the private key from `kf` into its key slot (naming the key
after the file), sign the node, and destroy the context.  Returns -1 when
key loading or signing fails, 0 on success.  The C allocation-failure paths
(`xmlSecDSigCtxCreate` returning NULL, `xmlSecKeySetName` failing on a live
key) are not modelled: allocation is assumed to succeed. -/
def do_sign_node (e : ExtEnv) (kf : String) (fresh : Nat) (t : XNode) : SignStep :=
  let ctx0 := xmlSecDSigCtxCreate fresh
  match e.loadKey kf with
  | none => ⟨-1, ctx0⟩
  | some m =>
    let k : Key := ⟨m, kf⟩
    let ctx1 : DSigCtx := ⟨ctx0.ctxId, some k⟩
    if e.signOk k t then ⟨0, ctx1⟩ else ⟨-1, ctx1⟩

/-- The observable outcome of the signing loop (sign1.c lines 420-434):
whether it completed without failure, the nodes passed to `do_sign_node` in
invocation order, and the context instances those invocations created. -/
structure LoopOut where
  ok : Bool
  invoked : List XNode
  ctxs : List DSigCtx

/-- The signing loop of `sign_file` (sign1.c lines 420-434): walk the query
result set in order; for each element-typed node call `do_sign_node`; on the
first failure jump to `done` (nothing after it runs).  `fresh` threads the
allocator counter — the only state crossing iterations. -/
def signLoop (e : ExtEnv) (kf : String) : List XNode → Nat → LoopOut
  | [], _ => ⟨true, [], []⟩
  | n :: rest, fresh =>
    if n.kind = NodeKind.element then
      let s := do_sign_node e kf fresh n
      if s.res < 0 then ⟨false, [n], [s.ctx]⟩
      else
        let r := signLoop e kf rest (fresh + 1)
        ⟨r.ok, n :: r.invoked, s.ctx :: r.ctxs⟩
    else signLoop e kf rest fresh

/-- The observable result of one `sign_file` run: the C result code, the
serialized document written to standard output (`xmlDocDump`, line 438 —
`none` when the run aborted before it), the located certificates container
and certificate nodes, the nodes on which `do_sign_node` was invoked, and
the signature context instances those invocations used. -/
structure RunResult where
  res : Int
  output : Option XNode
  certs : Option (XNode × XNode)
  invoked : List XNode
  ctxs : List DSigCtx

/-- `sign_file` (sign1.c lines 341-453), step by step: parse the template
(failing when the document or its root is missing); locate the certificates
container by pre-order search from the root; register its `id`; locate the
certificate node — again by pre-order search from the root element, not
within the container; register its `id`; create the XPath context; register
the fixed namespace binding list; evaluate `//sig:Signature`; check that an
anchor Signature node exists under the root; run the signing loop; on full
success serialize the document.  Every failure path returns -1 with no
document serialized. -/
def sign_file (e : ExtEnv) (kf : String) : RunResult :=
  match e.parse with
  | none => ⟨-1, none, none, [], []⟩
  | some root =>
    match xmlSecFindNode xmlSecNodeCertificates xmlSecNodeCertificatesNS root with
    | none => ⟨-1, none, none, [], []⟩
    | some certsNode =>
      let p1 := RegisterID [] certsNode "id"
      if p1.1 < 0 then ⟨-1, none, none, [], []⟩
      else
        match xmlSecFindNode "certificate" xmlSecNodeCertificatesNS root with
        | none => ⟨-1, none, none, [], []⟩
        | some certNode =>
          let p2 := RegisterID p1.2 certNode "id"
          if p2.1 < 0 then ⟨-1, none, some (certsNode, certNode), [], []⟩
          else if e.newCtxOk = false then ⟨-1, none, some (certsNode, certNode), [], []⟩
          else
            match register_namespaces sigNsListChars with
            | none => ⟨-1, none, some (certsNode, certNode), [], []⟩
            | some _ =>
              match e.eval with
              | none => ⟨-1, none, some (certsNode, certNode), [], []⟩
              | some l =>
                match xmlSecFindNode xmlSecNodeSignature xmlSecDSigNs root with
                | none => ⟨-1, none, some (certsNode, certNode), [], []⟩
                | some _ =>
                  let lo := signLoop e kf l 0
                  if lo.ok then ⟨0, some root, some (certsNode, certNode), lo.invoked, lo.ctxs⟩
                  else ⟨-1, none, some (certsNode, certNode), lo.invoked, lo.ctxs⟩

/-- Success flags of the four library initialization calls `main` performs
before `sign_file` (sign1.c lines 192-227).  The dynamic-loading block is
compiled out by this repository's build script (`--disable-crypto-dl`). -/
structure InitFlags where
  xmlSecInitOk : Bool
  versionOk : Bool
  cryptoAppInitOk : Bool
  cryptoInitOk : Bool

/-- `main` (sign1.c lines 156-250): with a wrong argument count return 1;
with any library initialization failure return -1; when `sign_file` reports
a negative result return -1; otherwise shut the libraries down and return 0.
`argc` counts the program name, so a correct invocation has `argc = 3`. -/
def mainRet (argc : Nat) (flags : InitFlags) (e : ExtEnv) (keyFile : String) : Int :=
  if argc ≠ 3 then 1
  else if flags.xmlSecInitOk = false then -1
  else if flags.versionOk = false then -1
  else if flags.cryptoAppInitOk = false then -1
  else if flags.cryptoInitOk = false then -1
  else if (sign_file e keyFile).res < 0 then -1
  else 0

/-- The process exit status observed by the caller: the value returned from
the C `main`, truncated to its low eight bits (so returning -1 exits with
status 255). -/
def mainExitCode (argc : Nat) (flags : InitFlags) (e : ExtEnv) (keyFile : String) : Nat :=
  ((mainRet argc flags e keyFile) % 256).toNat

/-- `do_sign_node` returns either 0 or -1, like the C function. -/
theorem do_sign_node_res_cases (e : ExtEnv) (kf : String) (f : Nat) (t : XNode) :
    (do_sign_node e kf f t).res = 0 ∨ (do_sign_node e kf f t).res = -1 := by
  unfold do_sign_node
  cases hk : e.loadKey kf with
  | none => right; rfl
  | some m =>
    dsimp only
    cases e.signOk ⟨m, kf⟩ t
    · right; rfl
    · left; rfl

/-- The result of `do_sign_node` does not depend on the allocator counter:
the context identity is the only piece of data that differs between two
invocations on the same node and key file. -/
theorem do_sign_node_res_fresh (e : ExtEnv) (kf : String) (f1 f2 : Nat) (t : XNode) :
    (do_sign_node e kf f1 t).res = (do_sign_node e kf f2 t).res := by
  unfold do_sign_node
  cases e.loadKey kf with
  | none => rfl
  | some m =>
    dsimp only
    cases e.signOk ⟨m, kf⟩ t <;> rfl

/-- The context used by a `do_sign_node` call carries the identity of the
freshly created context. -/
theorem do_sign_node_ctx_id (e : ExtEnv) (kf : String) (f : Nat) (t : XNode) :
    (do_sign_node e kf f t).ctx.ctxId = f := by
  unfold do_sign_node
  cases e.loadKey kf with
  | none => rfl
  | some m =>
    dsimp only
    cases e.signOk ⟨m, kf⟩ t <;> rfl

/-- The key slot of the context used by a `do_sign_node` call holds exactly
the key newly loaded from the key file (named after that file), or nothing
when loading failed. -/
theorem do_sign_node_ctx_key (e : ExtEnv) (kf : String) (f : Nat) (t : XNode) :
    (do_sign_node e kf f t).ctx.signKey =
      (e.loadKey kf).map (fun m => ⟨m, kf⟩) := by
  unfold do_sign_node
  cases e.loadKey kf with
  | none => rfl
  | some m =>
    dsimp only
    cases e.signOk ⟨m, kf⟩ t <;> rfl

/-- Every node the signing loop passes to `do_sign_node` is element-typed. -/
theorem signLoop_invoked_element (e : ExtEnv) (kf : String) :
    ∀ (l : List XNode) (f : Nat),
      ∀ n ∈ (signLoop e kf l f).invoked, n.kind = NodeKind.element := by
  intro l
  induction l with
  | nil => intro f n hn; simp [signLoop] at hn
  | cons m rest ih =>
    intro f n hn
    by_cases hk : m.kind = NodeKind.element
    · simp only [signLoop, if_pos hk] at hn
      by_cases hr : (do_sign_node e kf f m).res < 0
      · simp only [if_pos hr, List.mem_singleton] at hn
        subst hn; exact hk
      · simp only [if_neg hr, List.mem_cons] at hn
        rcases hn with h | h
        · subst h; exact hk
        · exact ih (f + 1) n h
    · simp only [signLoop, if_neg hk] at hn
      exact ih f n hn

/-- The nodes the signing loop passes to `do_sign_node` form an
order-preserving subsequence of the query result set. -/
theorem signLoop_invoked_sublist (e : ExtEnv) (kf : String) :
    ∀ (l : List XNode) (f : Nat), ((signLoop e kf l f).invoked).Sublist l := by
  intro l
  induction l with
  | nil => intro f; simp [signLoop]
  | cons m rest ih =>
    intro f
    by_cases hk : m.kind = NodeKind.element
    · simp only [signLoop, if_pos hk]
      by_cases hr : (do_sign_node e kf f m).res < 0
      · simp only [if_pos hr]
        exact (List.nil_sublist rest).cons₂ m
      · simp only [if_neg hr]
        exact (ih (f + 1)).cons₂ m
    · simp only [signLoop, if_neg hk]
      exact (ih f).cons m

/-- The signing loop completes without failure exactly when `do_sign_node`
succeeds on every element-typed node of the query result set. -/
theorem signLoop_ok_iff (e : ExtEnv) (kf : String) :
    ∀ (l : List XNode) (f : Nat),
      (signLoop e kf l f).ok = true ↔
        ∀ n ∈ l, n.kind = NodeKind.element → (do_sign_node e kf 0 n).res = 0 := by
  intro l
  induction l with
  | nil => intro f; simp [signLoop]
  | cons m rest ih =>
    intro f
    by_cases hk : m.kind = NodeKind.element
    · simp only [signLoop, if_pos hk]
      by_cases hr : (do_sign_node e kf f m).res < 0
      · simp only [if_pos hr]
        constructor
        · intro h; exact absurd h (by simp)
        · intro h
          have h0 := h m (List.mem_cons_self m rest) hk
          rw [do_sign_node_res_fresh e kf 0 f m] at h0
          rw [h0] at hr
          exact absurd hr (by simp)
      · simp only [if_neg hr]
        rw [ih (f + 1)]
        constructor
        · intro h n hn hkn
          rcases List.mem_cons.mp hn with h1 | h1
          · subst h1
            rcases do_sign_node_res_cases e kf 0 n with h0 | h0
            · exact h0
            · rw [do_sign_node_res_fresh e kf 0 f n, ] at h0
              rw [h0] at hr
              exact absurd (by norm_num : (-1 : Int) < 0) hr
          · exact h n h1 hkn
        · intro h n hn hkn
          exact h n (List.mem_cons_of_mem m hn) hkn
    · simp only [signLoop, if_neg hk]
      rw [ih f]
      constructor
      · intro h n hn hkn
        rcases List.mem_cons.mp hn with h1 | h1
        · subst h1; exact absurd hkn hk
        · exact h n h1 hkn
      · intro h n hn hkn
        exact h n (List.mem_cons_of_mem m hn) hkn

/-- When the loop completes without failure it has invoked `do_sign_node` on
exactly the element-typed nodes of the query result set, in order. -/
theorem signLoop_invoked_of_ok (e : ExtEnv) (kf : String) :
    ∀ (l : List XNode) (f : Nat), (signLoop e kf l f).ok = true →
      (signLoop e kf l f).invoked =
        l.filter (fun n => decide (n.kind = NodeKind.element)) := by
  intro l
  induction l with
  | nil => intro f _; simp [signLoop]
  | cons m rest ih =>
    intro f hok
    by_cases hk : m.kind = NodeKind.element
    · simp only [signLoop, if_pos hk] at hok ⊢
      by_cases hr : (do_sign_node e kf f m).res < 0
      · simp only [if_pos hr] at hok
        exact absurd hok (by simp)
      · simp only [if_neg hr] at hok ⊢
        rw [List.filter_cons_of_pos (by simp [hk])]
        rw [ih (f + 1) hok]
    · simp only [signLoop, if_neg hk] at hok ⊢
      rw [List.filter_cons_of_neg (by simp [hk])]
      exact ih f hok

/-- Nothing is invoked after a failing invocation: a node on which
`do_sign_node` fails is the last node the loop passed to it. -/
theorem signLoop_stop_after_fail (e : ExtEnv) (kf : String) :
    ∀ (l : List XNode) (f : Nat) (pre : List XNode) (n : XNode) (post : List XNode),
      (signLoop e kf l f).invoked = pre ++ n :: post →
      (do_sign_node e kf 0 n).res < 0 → post = [] := by
  intro l
  induction l with
  | nil =>
    intro f pre n post h _
    rw [show (signLoop e kf [] f).invoked = [] from rfl] at h
    exact absurd h.symm (by simp)
  | cons m rest ih =>
    intro f pre n post h hfail
    by_cases hk : m.kind = NodeKind.element
    · simp only [signLoop, if_pos hk] at h
      by_cases hr : (do_sign_node e kf f m).res < 0
      · simp only [if_pos hr] at h
        cases pre with
        | nil =>
          simp only [List.nil_append] at h
          exact ((List.cons_eq_cons.mp h).2).symm
        | cons a pre2 =>
          simp only [List.cons_append] at h
          exact absurd ((List.cons_eq_cons.mp h).2).symm (by simp)
      · simp only [if_neg hr] at h
        cases pre with
        | nil =>
          simp only [List.nil_append] at h
          have hnm := (List.cons_eq_cons.mp h).1
          exfalso
          apply hr
          rw [do_sign_node_res_fresh e kf f 0 m, hnm]
          exact hfail
        | cons a pre2 =>
          simp only [List.cons_append] at h
          exact ih (f + 1) pre2 n post (List.cons_eq_cons.mp h).2 hfail
    · simp only [signLoop, if_neg hk] at h
      exact ih f pre n post h hfail

/-- Context identities produced by the loop are at least the starting
allocator counter. -/
theorem signLoop_ctx_id_ge (e : ExtEnv) (kf : String) :
    ∀ (l : List XNode) (f : Nat), ∀ c ∈ (signLoop e kf l f).ctxs, f ≤ c.ctxId := by
  intro l
  induction l with
  | nil => intro f c hc; simp [signLoop] at hc
  | cons m rest ih =>
    intro f c hc
    by_cases hk : m.kind = NodeKind.element
    · simp only [signLoop, if_pos hk] at hc
      by_cases hr : (do_sign_node e kf f m).res < 0
      · simp only [if_pos hr, List.mem_singleton] at hc
        subst hc
        rw [do_sign_node_ctx_id]
      · simp only [if_neg hr, List.mem_cons] at hc
        rcases hc with h | h
        · subst h; rw [do_sign_node_ctx_id]
        · exact Nat.le_of_succ_le (ih (f + 1) c h)
    · simp only [signLoop, if_neg hk] at hc
      exact ih f c hc

/-- The context instances used by the loop's invocations are pairwise
distinct: their identities strictly increase. -/
theorem signLoop_ctxs_pairwise (e : ExtEnv) (kf : String) :
    ∀ (l : List XNode) (f : Nat),
      ((signLoop e kf l f).ctxs).Pairwise (fun a b => a.ctxId < b.ctxId) := by
  intro l
  induction l with
  | nil => intro f; simp [signLoop]
  | cons m rest ih =>
    intro f
    by_cases hk : m.kind = NodeKind.element
    · simp only [signLoop, if_pos hk]
      by_cases hr : (do_sign_node e kf f m).res < 0
      · simp only [if_pos hr]
        exact List.pairwise_singleton _ _
      · simp only [if_neg hr]
        refine List.Pairwise.cons ?_ (ih (f + 1))
        intro c hc
        rw [do_sign_node_ctx_id]
        exact Nat.lt_of_succ_le (signLoop_ctx_id_ge e kf rest (f + 1) c hc)
    · simp only [signLoop, if_neg hk]
      exact ih f

/-- Every context instance used by the loop holds the key freshly loaded
from the key file (named after it), or an empty slot when loading failed. -/
theorem signLoop_ctxs_key (e : ExtEnv) (kf : String) :
    ∀ (l : List XNode) (f : Nat), ∀ c ∈ (signLoop e kf l f).ctxs,
      c.signKey = (e.loadKey kf).map (fun m => ⟨m, kf⟩) := by
  intro l
  induction l with
  | nil => intro f c hc; simp [signLoop] at hc
  | cons m rest ih =>
    intro f c hc
    by_cases hk : m.kind = NodeKind.element
    · simp only [signLoop, if_pos hk] at hc
      by_cases hr : (do_sign_node e kf f m).res < 0
      · simp only [if_pos hr, List.mem_singleton] at hc
        subst hc
        exact do_sign_node_ctx_key e kf f m
      · simp only [if_neg hr, List.mem_cons] at hc
        rcases hc with h | h
        · subst h; exact do_sign_node_ctx_key e kf f m
        · exact ih (f + 1) c h
    · simp only [signLoop, if_neg hk] at hc
      exact ih f c hc

/-- One context instance per invocation. -/
theorem signLoop_ctxs_length (e : ExtEnv) (kf : String) :
    ∀ (l : List XNode) (f : Nat),
      ((signLoop e kf l f).ctxs).length = ((signLoop e kf l f).invoked).length := by
  intro l
  induction l with
  | nil => intro f; rfl
  | cons m rest ih =>
    intro f
    by_cases hk : m.kind = NodeKind.element
    · simp only [signLoop, if_pos hk]
      by_cases hr : (do_sign_node e kf f m).res < 0
      · simp only [if_pos hr]
        rfl
      · simp only [if_neg hr, List.length_cons]
        rw [ih (f + 1)]
    · simp only [signLoop, if_neg hk]
      exact ih f

/-- Evaluating `register_namespaces` on the fixed binding list of
`sign_file` yields the single `sig` binding. -/
theorem register_namespaces_sig :
    register_namespaces sigNsListChars =
      some [(("sig").toList, ("http://www.w3.org/2000/09/xmldsig#").toList)] := rfl

/-- When every step up to the anchor check succeeds, `sign_file` reduces to
the outcome of the signing loop over the query result set: full success with
the serialized document when the loop completes, a -1 result with no output
otherwise. -/
theorem sign_file_loop_shape (e : ExtEnv) (kf : String) (root csN cN sN : XNode)
    (l : List XNode)
    (hp : e.parse = some root)
    (h1 : xmlSecFindNode xmlSecNodeCertificates xmlSecNodeCertificatesNS root = some csN)
    (h2 : hasGoodId csN = true)
    (h3 : xmlSecFindNode "certificate" xmlSecNodeCertificatesNS root = some cN)
    (h4 : hasGoodId cN = true)
    (h5 : e.newCtxOk = true)
    (h6 : e.eval = some l)
    (h7 : xmlSecFindNode xmlSecNodeSignature xmlSecDSigNs root = some sN) :
    sign_file e kf =
      if (signLoop e kf l 0).ok then
        ⟨0, some root, some (csN, cN), (signLoop e kf l 0).invoked, (signLoop e kf l 0).ctxs⟩
      else
        ⟨-1, none, some (csN, cN), (signLoop e kf l 0).invoked, (signLoop e kf l 0).ctxs⟩ := by
  have hr1 : (RegisterID [] csN "id").1 = 0 := RegisterID_fst_of_hasGoodId [] csN h2
  have hr2 : (RegisterID (RegisterID [] csN "id").2 cN "id").1 = 0 :=
    RegisterID_fst_of_hasGoodId _ cN h4
  simp only [sign_file, hp, h1, h3, h5, h6, h7, hr1, hr2, register_namespaces_sig]
  norm_num

/-- A parse failure (or missing root) aborts the run before anything else. -/
theorem sign_file_no_parse (e : ExtEnv) (kf : String) (hp : e.parse = none) :
    sign_file e kf = ⟨-1, none, none, [], []⟩ := by
  simp only [sign_file, hp]

/-- When the certificates container is absent from the whole document, the
run fails with no output, no located nodes, and no signing invocation. -/
theorem sign_file_no_certs (e : ExtEnv) (kf : String) (root : XNode)
    (hp : e.parse = some root)
    (h1 : xmlSecFindNode xmlSecNodeCertificates xmlSecNodeCertificatesNS root = none) :
    sign_file e kf = ⟨-1, none, none, [], []⟩ := by
  simp only [sign_file, hp, h1]

/-- When no certificate node exists anywhere under the root, the run fails
with no output and no signing invocation, whatever else the document holds. -/
theorem sign_file_no_cert (e : ExtEnv) (kf : String) (root : XNode)
    (hp : e.parse = some root)
    (h3 : xmlSecFindNode "certificate" xmlSecNodeCertificatesNS root = none) :
    sign_file e kf = ⟨-1, none, none, [], []⟩ := by
  cases h1 : xmlSecFindNode xmlSecNodeCertificates xmlSecNodeCertificatesNS root with
  | none => simp only [sign_file, hp, h1]
  | some csN =>
    simp only [sign_file, hp, h1, h3]
    split <;> rfl

/-- Whenever the run records a located pair of certificates nodes, both were
found by pre-order search from the document root. -/
theorem sign_file_certs_shape (e : ExtEnv) (kf : String) :
    (sign_file e kf).certs = none ∨
      ∃ root csN cN, e.parse = some root ∧
        xmlSecFindNode xmlSecNodeCertificates xmlSecNodeCertificatesNS root = some csN ∧
        xmlSecFindNode "certificate" xmlSecNodeCertificatesNS root = some cN ∧
        (sign_file e kf).certs = some (csN, cN) := by
  cases hp : e.parse with
  | none => left; simp only [sign_file, hp]
  | some root =>
    cases h1 : xmlSecFindNode xmlSecNodeCertificates xmlSecNodeCertificatesNS root with
    | none => left; simp only [sign_file, hp, h1]
    | some csN =>
      by_cases hq1 : (RegisterID [] csN "id").1 < 0
      · left; simp [sign_file, hp, h1, hq1]
      · cases h3 : xmlSecFindNode "certificate" xmlSecNodeCertificatesNS root with
        | none => left; simp [sign_file, hp, h1, h3, hq1]
        | some cN =>
          refine Or.inr ⟨root, csN, cN, rfl, h1, h3, ?_⟩
          simp only [sign_file, hp, h1, h3, register_namespaces_sig]
          rw [if_neg hq1]
          repeat' split
          all_goals rfl

/-- The branch structure of one `sign_file` run: either some step failed
before the signing loop (result -1, nothing serialized, nothing invoked), or
the run reduces to the loop outcome over the query result set. -/
theorem sign_file_branches (e : ExtEnv) (kf : String) :
    ((sign_file e kf).res = -1 ∧ (sign_file e kf).output = none ∧
      (sign_file e kf).invoked = [] ∧ (sign_file e kf).ctxs = []) ∨
    (∃ root csN cN l, e.parse = some root ∧ e.eval = some l ∧
      (((signLoop e kf l 0).ok = true ∧
          sign_file e kf =
            ⟨0, some root, some (csN, cN),
              (signLoop e kf l 0).invoked, (signLoop e kf l 0).ctxs⟩) ∨
        ((signLoop e kf l 0).ok = false ∧
          sign_file e kf =
            ⟨-1, none, some (csN, cN),
              (signLoop e kf l 0).invoked, (signLoop e kf l 0).ctxs⟩))) := by
  cases hp : e.parse with
  | none => left; simp [sign_file, hp]
  | some root =>
    cases h1 : xmlSecFindNode xmlSecNodeCertificates xmlSecNodeCertificatesNS root with
    | none => left; simp [sign_file, hp, h1]
    | some csN =>
      by_cases hq1 : (RegisterID [] csN "id").1 < 0
      · left; simp [sign_file, hp, h1, hq1]
      · cases h3 : xmlSecFindNode "certificate" xmlSecNodeCertificatesNS root with
        | none => left; simp [sign_file, hp, h1, h3, hq1]
        | some cN =>
          by_cases hq2 : (RegisterID (RegisterID [] csN "id").2 cN "id").1 < 0
          · left; simp [sign_file, hp, h1, h3, hq1, hq2]
          · by_cases hc : e.newCtxOk = false
            · left; simp [sign_file, hp, h1, h3, hq1, hq2, hc]
            · cases he : e.eval with
              | none =>
                left
                simp [sign_file, hp, h1, h3, hq1, hq2, hc, he, register_namespaces_sig]
              | some l =>
                cases ha : xmlSecFindNode xmlSecNodeSignature xmlSecDSigNs root with
                | none =>
                  left
                  simp [sign_file, hp, h1, h3, hq1, hq2, hc, he, ha, register_namespaces_sig]
                | some sN =>
                  right
                  refine ⟨root, csN, cN, l, rfl, rfl, ?_⟩
                  by_cases ho : (signLoop e kf l 0).ok
                  · left
                    refine ⟨ho, ?_⟩
                    simp [sign_file, hp, h1, h3, hq1, hq2, hc, he, ha, ho,
                      register_namespaces_sig]
                  · right
                    refine ⟨Bool.not_eq_true _ ▸ ho, ?_⟩
                    simp [sign_file, hp, h1, h3, hq1, hq2, hc, he, ha, ho,
                      register_namespaces_sig]

/-- `sign_file` returns either 0 or -1, like the C function. -/
theorem sign_file_res_cases (e : ExtEnv) (kf : String) :
    (sign_file e kf).res = 0 ∨ (sign_file e kf).res = -1 := by
  rcases sign_file_branches e kf with h | ⟨root, csN, cN, l, hp, he, h | h⟩
  · right; exact h.1
  · left; rw [h.2]
  · right; rw [h.2]

/-- `sign_file` serializes the document exactly when it reports success. -/
theorem sign_file_output_iff (e : ExtEnv) (kf : String) :
    (sign_file e kf).res = 0 ↔ (sign_file e kf).output ≠ none := by
  rcases sign_file_branches e kf with h | ⟨root, csN, cN, l, hp, he, h | h⟩
  · simp [h.1, h.2.1]
  · rw [h.2]; simp
  · rw [h.2]; simp

/-- C4: for every namespace binding list whose remaining input holds a
non-empty token but no `=` character, the parsing loop of
`register_namespaces` rejects the list with a negative return value.
`registerNamespacesFuel s ctx` is the loop state with remaining input `s`,
so this covers a token at any position; `register_namespaces` itself is the
instance with full fuel and an empty context, rejecting in particular the
input "sig http://example". -/
theorem C4_missing_eq_rejected (fuel : Nat) (s : List Char)
    (ctx : List (List Char × List Char)) (hf : 0 < fuel)
    (h1 : s.dropWhile (fun c => c = ' ') ≠ [])
    (h2 : '=' ∉ s) :
    registerNamespacesFuel fuel s ctx = none := by
  cases fuel with
  | zero => exact absurd hf (by simp)
  | succ f =>
    simp only [registerNamespacesFuel]
    rw [if_neg (by simpa [List.isEmpty_iff] using h1)]
    rw [splitAtChar_none_of_not_mem '=' _
      (fun hm => h2 ((List.dropWhile_sublist _).mem hm))]

/-- C4 witness: the binding list "sig http://example" is rejected by
`register_namespaces`. -/
theorem C4_witness :
    (("sig http://example").toList.dropWhile (fun c => c = ' ') ≠ [] ∧
      '=' ∉ ("sig http://example").toList) ∧
    register_namespaces (("sig http://example").toList) = none :=
  ⟨⟨by decide, by decide⟩,
    C4_missing_eq_rejected _ _ [] (by decide) (by decide) (by decide)⟩

/-- C9: a binding list that is empty or holds only space characters makes
the parsing loop of `register_namespaces` return success without touching
the context's bindings; with the empty initial context of
`register_namespaces`, no namespace gets registered. -/
theorem C9_blank_list_registers_nothing (fuel : Nat) (s : List Char)
    (ctx : List (List Char × List Char)) (hf : 0 < fuel)
    (hs : ∀ c ∈ s, c = ' ') :
    registerNamespacesFuel fuel s ctx = some ctx := by
  cases fuel with
  | zero => exact absurd hf (by simp)
  | succ f =>
    have hni : s.dropWhile (fun c => c = ' ') = [] :=
      List.dropWhile_eq_nil_iff.mpr (fun x hx => by simp [hs x hx])
    simp only [registerNamespacesFuel]
    rw [if_pos (by simp [hni])]

/-- C9 witness: a list of three spaces succeeds and leaves a sample context
unchanged. -/
theorem C9_witness :
    (0 < 4 ∧ ∀ c ∈ ("   ").toList, c = ' ') ∧
    registerNamespacesFuel 4 (("   ").toList)
        [(("a").toList, ("b").toList)] =
      some [(("a").toList, ("b").toList)] :=
  ⟨⟨by decide, by decide⟩,
    C9_blank_list_registers_nothing 4 _ _ (by decide) (by decide)⟩

/-- C10: the search for `=` is not bounded by the current
whitespace-delimited token: on the input "a b=c", whose first token lacks
`=` while a later one contains it, `register_namespaces` succeeds and
registers the single binding with prefix "a b" (the intervening space
included) and href "c" instead of rejecting the list. -/
theorem C10_cross_token_binding :
    register_namespaces (("a b=c").toList) =
      some [(("a b").toList, ("c").toList)] := rfl

/-- C5: for every node, `RegisterID` returns -1 when the named attribute is
absent or its value is empty, and leaves the identifier registry unchanged. -/
theorem C5_missing_or_empty_attribute (reg : List String) (t : XNode)
    (idName : String)
    (h : xmlHasProp t idName = none ∨ xmlHasProp t idName = some "") :
    RegisterID reg t idName = (-1, reg) := by
  rcases h with h | h
  · unfold RegisterID
    rw [h]
  · unfold RegisterID
    rw [h]
    simp

/-- C5 witness: a node with no attributes makes `RegisterID` fail and the
registry stays empty. -/
theorem C5_witness :
    xmlHasProp (XNode.node NodeKind.element "data" none [] []) "id" = none ∧
    RegisterID [] (XNode.node NodeKind.element "data" none [] []) "id" = (-1, []) :=
  ⟨rfl, C5_missing_or_empty_attribute [] _ "id" (Or.inl rfl)⟩

/-- C1: evaluation of `RegisterID` at the failing input for the
duplicate-identifier claim.  With the value "c1" already present in the
registry, registering a node whose `id` attribute is again "c1" returns 0
(success) and records the identifier once more: the duplicate check of the
original example is commented out in this source (sign1.c lines 275-281),
so no `DuplicateIdentifier` failure is possible. -/
theorem C1_duplicate_identifier_not_rejected :
    RegisterID ["c1"]
      (XNode.node NodeKind.element "certificates"
        (some xmlSecNodeCertificatesNS) [("id", "c1")] []) "id" =
      (0, ["c1", "c1"]) := rfl

/-- C2 (amended): the driver locates the certificate node by pre-order
search starting from the document root — the same starting point as the
container search, not restricted to the container's subtree — and the run
fails (result -1, nothing serialized) when either search finds nothing. -/
theorem C2_certificate_located_from_root (e : ExtEnv) (kf : String)
    (root : XNode) (hp : e.parse = some root) :
    (xmlSecFindNode xmlSecNodeCertificates xmlSecNodeCertificatesNS root = none →
        sign_file e kf = ⟨-1, none, none, [], []⟩) ∧
    (xmlSecFindNode "certificate" xmlSecNodeCertificatesNS root = none →
        sign_file e kf = ⟨-1, none, none, [], []⟩) ∧
    (∀ csN cN, (sign_file e kf).certs = some (csN, cN) →
        xmlSecFindNode xmlSecNodeCertificates xmlSecNodeCertificatesNS root = some csN ∧
        xmlSecFindNode "certificate" xmlSecNodeCertificatesNS root = some cN) := by
  refine ⟨fun h1 => sign_file_no_certs e kf root hp h1,
          fun h3 => sign_file_no_cert e kf root hp h3, ?_⟩
  intro csN cN hc
  rcases sign_file_certs_shape e kf with h | ⟨root2, csN2, cN2, hp2, h1, h3, hc2⟩
  · rw [h] at hc; cases hc
  · rw [hp] at hp2
    injection hp2 with hroot
    subst hroot
    rw [hc] at hc2
    simp only [Option.some.injEq, Prod.mk.injEq] at hc2
    obtain ⟨hcs, hcn⟩ := hc2
    subst hcs
    subst hcn
    exact ⟨h1, h3⟩

/-- C2 witness: on a document whose root holds nothing at all, the run
fails with nothing located, nothing invoked and nothing serialized. -/
theorem C2_witness :
    sign_file
        { parse := some (XNode.node NodeKind.element "root" none [] [])
          newCtxOk := true
          eval := some []
          loadKey := fun _ => none
          signOk := fun _ _ => false } "rsakey.pem" =
      ⟨-1, none, none, [], []⟩ :=
  (C2_certificate_located_from_root _ "rsakey.pem"
    (XNode.node NodeKind.element "root" none [] []) rfl).1 rfl

/-- The certificates container of the C2 counterexample document: it holds
no certificate node at all. -/
def c2CertsNode : XNode :=
  XNode.node NodeKind.element "certificates" (some xmlSecNodeCertificatesNS)
    [("id", "i1")] []

/-- A certificate node placed outside the container. -/
def c2CertNode : XNode :=
  XNode.node NodeKind.element "certificate" (some xmlSecNodeCertificatesNS)
    [("id", "i2")] []

/-- A signature template node. -/
def c2SigNode : XNode :=
  XNode.node NodeKind.element "Signature" (some xmlSecDSigNs) [] []

/-- The C2 counterexample document: the certificate node is a sibling of
the certificates container, not inside it. -/
def c2Root : XNode :=
  XNode.node NodeKind.element "root" none [] [c2CertsNode, c2CertNode, c2SigNode]

/-- External collaborators for the C2 counterexample run: the parse yields
`c2Root`, the query finds the one signature node, and key loading and
signing succeed. -/
def c2Env : ExtEnv :=
  { parse := some c2Root
    newCtxOk := true
    eval := some [c2SigNode]
    loadKey := fun _ => some 0
    signOk := fun _ _ => true }

/-- C2 counterexample: the claim that the certificate node is located by
searching only within the previously located certificates container fails.
On `c2Root` the container holds no certificate node whatsoever — a search
within it finds nothing — yet the run locates the outside certificate node
and completes with full success instead of failing. -/
theorem C2_counterexample :
    xmlSecFindNode "certificate" xmlSecNodeCertificatesNS c2CertsNode = none ∧
    (sign_file c2Env "rsakey.pem").certs = some (c2CertsNode, c2CertNode) ∧
    (sign_file c2Env "rsakey.pem").res = 0 := by
  refine ⟨rfl, rfl, rfl⟩

/-- When every step succeeds up to the anchor check but no Signature node
exists under the root, `sign_file` aborts with nothing invoked and nothing
serialized. -/
theorem sign_file_no_anchor (e : ExtEnv) (kf : String) (root csN cN : XNode)
    (l : List XNode)
    (hp : e.parse = some root)
    (h1 : xmlSecFindNode xmlSecNodeCertificates xmlSecNodeCertificatesNS root = some csN)
    (h2 : hasGoodId csN = true)
    (h3 : xmlSecFindNode "certificate" xmlSecNodeCertificatesNS root = some cN)
    (h4 : hasGoodId cN = true)
    (h5 : e.newCtxOk = true)
    (h6 : e.eval = some l)
    (h7 : xmlSecFindNode xmlSecNodeSignature xmlSecDSigNs root = none) :
    sign_file e kf = ⟨-1, none, some (csN, cN), [], []⟩ := by
  have hr1 : (RegisterID [] csN "id").1 = 0 := RegisterID_fst_of_hasGoodId [] csN h2
  have hr2 : (RegisterID (RegisterID [] csN "id").2 cN "id").1 = 0 :=
    RegisterID_fst_of_hasGoodId _ cN h4
  simp only [sign_file, hp, h1, h3, h5, h6, h7, hr1, hr2, register_namespaces_sig]
  norm_num

/-- C6: when the document contains zero Signature template nodes, the
pre-order anchor search from the root finds nothing and the driver fails:
result -1, no output document emitted, and no node ever handed to the
signing step — however the rest of the pipeline (parse, certificates
location and registration, XPath context and evaluation) went. -/
theorem C6_no_signature_template (e : ExtEnv) (kf : String)
    (root csN cN : XNode) (l : List XNode)
    (hp : e.parse = some root)
    (h1 : xmlSecFindNode xmlSecNodeCertificates xmlSecNodeCertificatesNS root = some csN)
    (h2 : hasGoodId csN = true)
    (h3 : xmlSecFindNode "certificate" xmlSecNodeCertificatesNS root = some cN)
    (h4 : hasGoodId cN = true)
    (h5 : e.newCtxOk = true)
    (h6 : e.eval = some l)
    (h7 : containsT xmlSecNodeSignature xmlSecDSigNs root = false) :
    (sign_file e kf).res = -1 ∧ (sign_file e kf).output = none ∧
      (sign_file e kf).invoked = [] := by
  have hfind := find_none_of_not_contains xmlSecNodeSignature xmlSecDSigNs root h7
  rw [sign_file_no_anchor e kf root csN cN l hp h1 h2 h3 h4 h5 h6 hfind]
  exact ⟨rfl, rfl, rfl⟩

/-- The certificates container of the C6 witness document, with the
certificate node inside it. -/
def c6CertsNode : XNode :=
  XNode.node NodeKind.element "certificates" (some xmlSecNodeCertificatesNS)
    [("id", "i1")]
    [XNode.node NodeKind.element "certificate" (some xmlSecNodeCertificatesNS)
      [("id", "i2")] []]

/-- The C6 witness document: certificates present, zero Signature nodes. -/
def c6Root : XNode :=
  XNode.node NodeKind.element "root" none [] [c6CertsNode]

/-- External collaborators for the C6 witness run: everything up to the
anchor check succeeds and the query result set is empty. -/
def c6Env : ExtEnv :=
  { parse := some c6Root
    newCtxOk := true
    eval := some []
    loadKey := fun _ => some 0
    signOk := fun _ _ => true }

/-- C6 witness: on a document with certificates but zero Signature nodes,
the run fails with no output and no signing invocation. -/
theorem C6_witness :
    (sign_file c6Env "rsakey.pem").res = -1 ∧
    (sign_file c6Env "rsakey.pem").output = none ∧
    (sign_file c6Env "rsakey.pem").invoked = [] :=
  C6_no_signature_template c6Env "rsakey.pem" c6Root c6CertsNode
    (XNode.node NodeKind.element "certificate" (some xmlSecNodeCertificatesNS)
      [("id", "i2")] [])
    [] rfl rfl rfl rfl rfl rfl rfl rfl

/-- C3: for every query result set `l`, once the run reaches the signing
loop, `do_sign_node` is invoked only on element-typed nodes of `l`, as an
order-preserving subsequence of `l` (hence in document order whenever `l`
is in document order); whenever some element-typed node of `l` fails to
sign, the whole run aborts with result -1 and no serialized document;
whenever every element-typed node signs, the run succeeds, serializes the
document and has invoked exactly the element-typed nodes in order; and
nothing is invoked after a failing invocation. -/
theorem C3_sign_elements_in_order_abort_on_failure (e : ExtEnv) (kf : String)
    (root csN cN sN : XNode) (l : List XNode)
    (hp : e.parse = some root)
    (h1 : xmlSecFindNode xmlSecNodeCertificates xmlSecNodeCertificatesNS root = some csN)
    (h2 : hasGoodId csN = true)
    (h3 : xmlSecFindNode "certificate" xmlSecNodeCertificatesNS root = some cN)
    (h4 : hasGoodId cN = true)
    (h5 : e.newCtxOk = true)
    (h6 : e.eval = some l)
    (h7 : xmlSecFindNode xmlSecNodeSignature xmlSecDSigNs root = some sN) :
    (∀ n ∈ (sign_file e kf).invoked, n.kind = NodeKind.element) ∧
    ((sign_file e kf).invoked).Sublist l ∧
    ((∃ n ∈ l, n.kind = NodeKind.element ∧ (do_sign_node e kf 0 n).res < 0) →
        (sign_file e kf).res = -1 ∧ (sign_file e kf).output = none) ∧
    ((∀ n ∈ l, n.kind = NodeKind.element → (do_sign_node e kf 0 n).res = 0) →
        (sign_file e kf).res = 0 ∧ (sign_file e kf).output = some root ∧
        (sign_file e kf).invoked =
          l.filter (fun n => decide (n.kind = NodeKind.element))) ∧
    (∀ pre n post, (sign_file e kf).invoked = pre ++ n :: post →
        (do_sign_node e kf 0 n).res < 0 → post = []) := by
  have hsf := sign_file_loop_shape e kf root csN cN sN l hp h1 h2 h3 h4 h5 h6 h7
  by_cases ho : (signLoop e kf l 0).ok
  · rw [if_pos ho] at hsf
    rw [hsf]
    refine ⟨signLoop_invoked_element e kf l 0, signLoop_invoked_sublist e kf l 0,
      ?_, ?_, ?_⟩
    · rintro ⟨n, hn, hkn, hfn⟩
      have h0 := (signLoop_ok_iff e kf l 0).mp ho n hn hkn
      rw [h0] at hfn
      exact absurd hfn (by norm_num)
    · intro _
      exact ⟨rfl, rfl, signLoop_invoked_of_ok e kf l 0 ho⟩
    · intro pre n post hsplit hfl
      exact signLoop_stop_after_fail e kf l 0 pre n post hsplit hfl
  · rw [if_neg ho] at hsf
    rw [hsf]
    refine ⟨signLoop_invoked_element e kf l 0, signLoop_invoked_sublist e kf l 0,
      fun _ => ⟨rfl, rfl⟩, ?_, ?_⟩
    · intro h
      exact absurd ((signLoop_ok_iff e kf l 0).mpr h) ho
    · intro pre n post hsplit hfl
      exact signLoop_stop_after_fail e kf l 0 pre n post hsplit hfl

/-- The certificates container of the C3 witness document. -/
def c3CertsNode : XNode :=
  XNode.node NodeKind.element "certificates" (some xmlSecNodeCertificatesNS)
    [("id", "i1")]
    [XNode.node NodeKind.element "certificate" (some xmlSecNodeCertificatesNS)
      [("id", "i2")] []]

/-- The signature template node of the C3 witness document. -/
def c3SigNode : XNode :=
  XNode.node NodeKind.element "Signature" (some xmlSecDSigNs) [] []

/-- A text node appearing in the C3 witness query result set: the loop must
skip it. -/
def c3TextNode : XNode :=
  XNode.node NodeKind.textNode "extra" none [] []

/-- The C3 witness document. -/
def c3Root : XNode :=
  XNode.node NodeKind.element "root" none [] [c3CertsNode, c3SigNode]

/-- External collaborators for the C3 witness run: the query result set
holds the signature element and a text node, and signing succeeds. -/
def c3Env : ExtEnv :=
  { parse := some c3Root
    newCtxOk := true
    eval := some [c3SigNode, c3TextNode]
    loadKey := fun _ => some 0
    signOk := fun _ _ => true }

/-- C3 witness: with a query result set holding one element node and one
text node, the run succeeds, serializes the document, and has invoked the
signing step on the element node only. -/
theorem C3_witness :
    (sign_file c3Env "rsakey.pem").res = 0 ∧
    (sign_file c3Env "rsakey.pem").output = some c3Root ∧
    (sign_file c3Env "rsakey.pem").invoked = [c3SigNode] := by
  have h := (C3_sign_elements_in_order_abort_on_failure c3Env "rsakey.pem"
    c3Root c3CertsNode
    (XNode.node NodeKind.element "certificate" (some xmlSecNodeCertificatesNS)
      [("id", "i2")] [])
    c3SigNode [c3SigNode, c3TextNode]
    rfl rfl rfl rfl rfl rfl rfl rfl).2.2.2.1 (by decide)
  exact ⟨h.1, h.2.1, h.2.2.trans rfl⟩

/-- C7: the process exit status is 0 exactly on full success (correct
argument count, all four library initializations succeeding, and
`sign_file` reporting 0); a wrong argument count exits with status 1, and
with a correct argument count every failure exits with status 255 — so the
bad-arguments failure is distinguished from processing failures and both
are non-zero. -/
theorem C7_exit_codes (argc : Nat) (flags : InitFlags) (e : ExtEnv) (kf : String) :
    (mainExitCode argc flags e kf = 0 ↔
      (argc = 3 ∧ flags.xmlSecInitOk = true ∧ flags.versionOk = true ∧
        flags.cryptoAppInitOk = true ∧ flags.cryptoInitOk = true ∧
        (sign_file e kf).res = 0)) ∧
    (argc ≠ 3 → mainExitCode argc flags e kf = 1) ∧
    (argc = 3 → mainExitCode argc flags e kf = 0 ∨ mainExitCode argc flags e kf = 255) := by
  unfold mainExitCode mainRet
  by_cases ha : argc ≠ 3
  · rw [if_pos ha]
    refine ⟨⟨fun h => absurd h (by decide), ?_⟩, fun _ => by decide,
      fun h3 => absurd h3 ha⟩
    rintro ⟨h3, -⟩
    exact absurd h3 ha
  · rw [if_neg ha]
    have ha3 : argc = 3 := not_ne_iff.mp ha
    cases hx1 : flags.xmlSecInitOk with
    | false =>
      refine ⟨⟨fun h => absurd h (by norm_num), ?_⟩, fun hne => absurd ha3 hne,
        fun _ => Or.inr (by norm_num; rfl)⟩
      rintro ⟨-, ht, -⟩
      exact absurd ht (by decide)
    | true =>
      cases hx2 : flags.versionOk with
      | false =>
        refine ⟨⟨fun h => absurd h (by norm_num), ?_⟩, fun hne => absurd ha3 hne,
          fun _ => Or.inr (by norm_num; rfl)⟩
        rintro ⟨-, -, ht, -⟩
        exact absurd ht (by decide)
      | true =>
        cases hx3 : flags.cryptoAppInitOk with
        | false =>
          refine ⟨⟨fun h => absurd h (by norm_num), ?_⟩, fun hne => absurd ha3 hne,
            fun _ => Or.inr (by norm_num; rfl)⟩
          rintro ⟨-, -, -, ht, -⟩
          exact absurd ht (by decide)
        | true =>
          cases hx4 : flags.cryptoInitOk with
          | false =>
            refine ⟨⟨fun h => absurd h (by norm_num), ?_⟩, fun hne => absurd ha3 hne,
              fun _ => Or.inr (by norm_num; rfl)⟩
            rintro ⟨-, -, -, -, ht, -⟩
            exact absurd ht (by decide)
          | true =>
            show ((((if (sign_file e kf).res < 0 then (-1 : Int) else 0)) % 256).toNat = 0 ↔ _) ∧ _
            by_cases hres : (sign_file e kf).res < 0
            · rw [if_pos hres]
              refine ⟨⟨fun h => absurd h (by decide), ?_⟩,
                fun hne => absurd ha3 hne, fun _ => Or.inr (by decide)⟩
              rintro ⟨-, -, -, -, -, h0⟩
              rw [h0] at hres
              exact absurd hres (by norm_num)
            · rw [if_neg hres]
              have h0 : (sign_file e kf).res = 0 := by
                rcases sign_file_res_cases e kf with h | h
                · exact h
                · rw [h] at hres
                  exact absurd (by norm_num : (-1 : Int) < 0) hres
              exact ⟨⟨fun _ => ⟨ha3, rfl, rfl, rfl, rfl, h0⟩, fun _ => by decide⟩,
                fun hne => absurd ha3 hne, fun _ => Or.inl (by decide)⟩

/-- External collaborators for the C7 witness run (contents irrelevant:
the witness exercises the wrong-argument-count path). -/
def c7Env : ExtEnv :=
  { parse := none
    newCtxOk := false
    eval := none
    loadKey := fun _ => none
    signOk := fun _ _ => false }

/-- C7 witness: invoking the program with one argument too few exits with
status 1, which differs from both 0 and the processing-failure status 255. -/
theorem C7_witness :
    mainExitCode 2 ⟨true, true, true, true⟩ c7Env "rsakey.pem" = 1 ∧
    (1 : Nat) ≠ 0 ∧ (1 : Nat) ≠ 255 :=
  ⟨(C7_exit_codes 2 ⟨true, true, true, true⟩ c7Env "rsakey.pem").2.1 (by decide),
    by decide, by decide⟩

/-- C8: per run, the signature context instances used by the per-template
`do_sign_node` invocations are pairwise distinct (each invocation creates
its own fresh engine instance); every instance's key slot holds exactly the
key newly loaded from the key file within that invocation; there is one
instance per invocation; and the outcome of an invocation does not depend
on the allocator counter — the only state threaded between iterations — so
no mutable engine state is shared between the per-template invocations. -/
theorem C8_fresh_engine_per_template (e : ExtEnv) (kf : String) :
    ((sign_file e kf).ctxs).Pairwise (fun a b => a.ctxId ≠ b.ctxId) ∧
    (∀ c ∈ (sign_file e kf).ctxs,
        c.signKey = (e.loadKey kf).map (fun m => ⟨m, kf⟩)) ∧
    ((sign_file e kf).ctxs).length = ((sign_file e kf).invoked).length ∧
    (∀ f1 f2 n, (do_sign_node e kf f1 n).res = (do_sign_node e kf f2 n).res) := by
  rcases sign_file_branches e kf with h | ⟨root, csN, cN, l, hp, he, h | h⟩
  · rw [h.2.2.2, h.2.2.1]
    exact ⟨List.Pairwise.nil, by simp, rfl, fun f1 f2 n => do_sign_node_res_fresh e kf f1 f2 n⟩
  · rw [h.2]
    exact ⟨(signLoop_ctxs_pairwise e kf l 0).imp (fun hlt => Nat.ne_of_lt hlt),
      signLoop_ctxs_key e kf l 0, signLoop_ctxs_length e kf l 0,
      fun f1 f2 n => do_sign_node_res_fresh e kf f1 f2 n⟩
  · rw [h.2]
    exact ⟨(signLoop_ctxs_pairwise e kf l 0).imp (fun hlt => Nat.ne_of_lt hlt),
      signLoop_ctxs_key e kf l 0, signLoop_ctxs_length e kf l 0,
      fun f1 f2 n => do_sign_node_res_fresh e kf f1 f2 n⟩

/-- The certificates container of the C8 witness document. -/
def c8CertsNode : XNode :=
  XNode.node NodeKind.element "certificates" (some xmlSecNodeCertificatesNS)
    [("id", "i1")]
    [XNode.node NodeKind.element "certificate" (some xmlSecNodeCertificatesNS)
      [("id", "i2")] []]

/-- A first signature template node for the C8 witness. -/
def c8SigNode1 : XNode :=
  XNode.node NodeKind.element "Signature" (some xmlSecDSigNs) [("n", "1")] []

/-- A second signature template node for the C8 witness. -/
def c8SigNode2 : XNode :=
  XNode.node NodeKind.element "Signature" (some xmlSecDSigNs) [("n", "2")] []

/-- The C8 witness document with two signature templates. -/
def c8Root : XNode :=
  XNode.node NodeKind.element "root" none [] [c8CertsNode, c8SigNode1, c8SigNode2]

/-- External collaborators for the C8 witness run: the query finds both
signature templates and signing succeeds. -/
def c8Env : ExtEnv :=
  { parse := some c8Root
    newCtxOk := true
    eval := some [c8SigNode1, c8SigNode2]
    loadKey := fun _ => some 7
    signOk := fun _ _ => true }

/-- C8 witness: on a run with two signature templates, the engine instances
are pairwise distinct and one per invocation. -/
theorem C8_witness :
    ((sign_file c8Env "rsakey.pem").ctxs).Pairwise (fun a b => a.ctxId ≠ b.ctxId) ∧
    ((sign_file c8Env "rsakey.pem").ctxs).length =
      ((sign_file c8Env "rsakey.pem").invoked).length :=
  ⟨(C8_fresh_engine_per_template c8Env "rsakey.pem").1,
    (C8_fresh_engine_per_template c8Env "rsakey.pem").2.2.1⟩
